import Mathlib

/-!
# Verification of the Sales-Dashboard data pipeline

Shallow embedding of the in-scope core of `src/dashboard_streamlit.py`:
the encoding-fallback loader, the data cleaner (`load_data`), the product
categorizer (`categorizar_producto`) and the metrics engine
(`calculate_metrics`).  Strings are modelled as lists of Unicode code
points (`PyStr`), numbers as exact rationals, and pandas tables as lists
of records.  Text operations (`strip`, `upper`, `lower`, substring
containment) are modelled on the ASCII range, which covers every keyword
and literal the program uses.
-/

/-- A Python string, as its list of Unicode code points. -/
abbrev PyStr := List Nat

/-- Code points of a Lean string literal. -/
def strCp (s : String) : PyStr := s.data.map Char.toNat

/-- ASCII whitespace as stripped by Python's `str.strip()`. -/
def isSpace (c : Nat) : Bool :=
  decide (c = 32 ∨ c = 9 ∨ c = 10 ∨ c = 13 ∨ c = 11 ∨ c = 12)

/-- `str.upper()` on one code point (ASCII range). -/
def pyUpperChar (c : Nat) : Nat := if 97 ≤ c ∧ c ≤ 122 then c - 32 else c

/-- `str.lower()` on one code point (ASCII range). -/
def pyLowerChar (c : Nat) : Nat := if 65 ≤ c ∧ c ≤ 90 then c + 32 else c

/-- `str.upper()`. -/
def pyUpper (s : PyStr) : PyStr := s.map pyUpperChar

/-- `str.lower()`. -/
def pyLower (s : PyStr) : PyStr := s.map pyLowerChar

/-- Drop leading whitespace. -/
def stripL (s : PyStr) : PyStr := s.dropWhile isSpace

/-- `str.strip()`: drop leading and trailing whitespace. -/
def pyStrip (s : PyStr) : PyStr := ((stripL s).reverse.dropWhile isSpace).reverse

/-- Python's `needle in hay`: contiguous-substring containment. -/
def containsSub : PyStr → PyStr → Bool
  | [], needle => needle.isEmpty
  | c :: rest, needle => needle.isPrefixOf (c :: rest) || containsSub rest needle

/-- The six product categories assigned by `categorizar_producto`. -/
inductive Categoria where
  | aguaEnBolsa
  | hielo
  | botellones
  | botecitos
  | impuestos
  | otros
deriving DecidableEq

/-- `categorizar_producto` (dashboard_streamlit.py, lines 73-86): lower-case
the item and test an ordered keyword list, first match wins. -/
def categorizar_producto (item : PyStr) : Categoria :=
  let item_lower := pyLower item
  if containsSub item_lower (strCp "agua") || containsSub item_lower (strCp "bolsa") then
    Categoria.aguaEnBolsa
  else if containsSub item_lower (strCp "hielo") then
    Categoria.hielo
  else if containsSub item_lower (strCp "botellon") then
    Categoria.botellones
  else if containsSub item_lower (strCp "botecito") || containsSub item_lower (strCp "bote") then
    Categoria.botecitos
  else if containsSub item_lower (strCp "impuesto") || containsSub item_lower (strCp "isv") then
    Categoria.impuestos
  else
    Categoria.otros

/-- A calendar date (the value of a parsed `Date` cell, a midnight timestamp). -/
structure Fecha where
  year : Nat
  month : Nat
  day : Nat
deriving DecidableEq

/-- Timestamp comparison `a <= b` for midnight timestamps: lexicographic on
(year, month, day). -/
def dateLe (a b : Fecha) : Bool :=
  decide (a.year < b.year ∨
    (a.year = b.year ∧ (a.month < b.month ∨ (a.month = b.month ∧ a.day ≤ b.day))))

/-- Digits-to-Nat (most significant first). -/
def natOfDigits (s : PyStr) : Nat := s.foldl (fun a c => a * 10 + (c - 48)) 0

/-- Every code point is an ASCII digit. -/
def allDigits (s : PyStr) : Bool := s.all (fun c => decide (48 ≤ c ∧ c ≤ 57))

/-- Split a string at every occurrence of the separator code point. -/
def splitChar (sep : Nat) : PyStr → List PyStr
  | [] => [[]]
  | c :: rest =>
    match splitChar sep rest with
    | [] => [[]]
    | h :: t => if c == sep then [] :: h :: t else (c :: h) :: t

/-- Gregorian leap year. -/
def isLeapYear (y : Nat) : Bool := decide (y % 4 = 0 ∧ (y % 100 ≠ 0 ∨ y % 400 = 0))

/-- Days in a month of a given year. -/
def daysInMonth (y m : Nat) : Nat :=
  if m = 2 then (if isLeapYear y then 29 else 28)
  else if m = 4 ∨ m = 6 ∨ m = 9 ∨ m = 11 then 30
  else 31

/-- `pd.to_datetime(·, format='%d/%m/%Y', errors='coerce')` on one cell:
day/month/year split on `/`, all digits, and a valid calendar date;
anything else coerces to null (`none`). -/
def parseDate (s : PyStr) : Option Fecha :=
  match splitChar 47 s with
  | [d, m, y] =>
    if allDigits d && allDigits m && allDigits y &&
        decide (1 ≤ d.length ∧ d.length ≤ 2 ∧ 1 ≤ m.length ∧ m.length ≤ 2 ∧ y.length = 4) then
      let dv := natOfDigits d
      let mv := natOfDigits m
      let yv := natOfDigits y
      if decide (1 ≤ mv ∧ mv ≤ 12 ∧ 1 ≤ dv ∧ dv ≤ daysInMonth yv mv) then
        some ⟨yv, mv, dv⟩
      else none
    else none
  | _ => none

/-- Decimal number without sign: integer part, optional fraction. -/
def parseUnsigned (t : PyStr) : Option ℚ :=
  match splitChar 46 t with
  | [ip] => if allDigits ip && !ip.isEmpty then some (natOfDigits ip : ℚ) else none
  | [ip, fp] =>
    if allDigits ip && allDigits fp && !(ip.isEmpty && fp.isEmpty) then
      some ((natOfDigits ip : ℚ) + (natOfDigits fp : ℚ) / (10 : ℚ) ^ fp.length)
    else none
  | _ => none

/-- `pd.to_numeric(·, errors='coerce')` on one cell: a decimal numeral with
optional sign and fraction (scientific notation is not modelled); anything
else coerces to null (`none`). -/
def parseNum (s : PyStr) : Option ℚ :=
  match pyStrip s with
  | 45 :: rest => (parseUnsigned rest).map (fun q => -q)
  | 43 :: rest => parseUnsigned rest
  | t => parseUnsigned t

/-- One raw CSV row: each cell is present (`some`) or missing/NaN (`none`). -/
structure RawRecord where
  type : Option PyStr
  name : Option PyStr
  item : Option PyStr
  date : Option PyStr
  qty : Option PyStr
  salesPrice : Option PyStr
  amount : Option PyStr
  balance : Option PyStr
deriving DecidableEq

/-- One row of the cleaned table (Weekday and ISO week are derived fields the
claims never touch and are omitted). -/
structure CleanRecord where
  type : PyStr
  name : PyStr
  item : PyStr
  date : Fecha
  qty : Option ℚ
  salesPrice : Option ℚ
  amount : ℚ
  balance : Option ℚ
  year : Nat
  month : Nat
  day : Nat
  categoria : Categoria
deriving DecidableEq

/-- The boolean row filter of `load_data` (lines 43-49): `Type` present and
not containing the literal `"Total"` (case-sensitive), and `Name`, `Item`,
`Amount` present. -/
def passesRowFilter (r : RawRecord) : Bool :=
  match r.type with
  | none => false
  | some t => !containsSub t (strCp "Total") && r.name.isSome && r.item.isSome && r.amount.isSome

/-- Per-row type coercion, normalization and required-field drop of
`load_data` (lines 52-88), for a row that passed the row filter: `Date` and
`Amount` must coerce (else the row is dropped by
`dropna(subset=['Date','Amount','Name'])`; `Name` is present after the row
filter and stays non-null under strip/upper); `Qty`, `Sales Price`,
`Balance` coerce to null on failure and the row is kept. -/
def toClean (r : RawRecord) : Option CleanRecord :=
  match r.date.bind parseDate, r.amount.bind parseNum with
  | some d, some a =>
    let nm := pyUpper (pyStrip (r.name.getD []))
    let it := pyStrip (r.item.getD [])
    some { type := r.type.getD [], name := nm, item := it, date := d,
           qty := r.qty.bind parseNum, salesPrice := r.salesPrice.bind parseNum,
           amount := a, balance := r.balance.bind parseNum,
           year := d.year, month := d.month, day := d.day,
           categoria := categorizar_producto it }
  | _, _ => none

/-- `load_data`'s cleaning pipeline on an in-memory raw table: row filter,
then per-row coercion/normalization/enrichment with required-field drops. -/
def load_data (raw : List RawRecord) : List CleanRecord :=
  (raw.filter passesRowFilter).filterMap toClean

/-- The metrics dictionary built by `calculate_metrics` (lines 122-134). -/
structure Metrics where
  total_ventas : ℚ
  total_transacciones : Nat
  ticket_promedio : ℚ
  clientes_unicos : Nat
  productos_unicos : Nat
  dias_con_ventas : Nat
  venta_contado : ℚ
  venta_credito : ℚ
  transacciones_contado : Nat
  transacciones_credito : Nat
deriving DecidableEq

/-- `df['Amount'].sum()` over a record list. -/
def sumAmounts (l : List CleanRecord) : ℚ := (l.map (fun r => r.amount)).sum

/-- The cash transaction type. -/
def SALES_RECEIPT : PyStr := strCp "Sales Receipt"

/-- The credit transaction type. -/
def INVOICE : PyStr := strCp "Invoice"

/-- `calculate_metrics` (lines 97-136): filter by inclusive date range, then
transaction type (skipped when `tipo_venta` is falsy: `None` or the empty
string), then customer-name membership (skipped when the selection is the
empty list), then category membership (likewise); return the filtered
records together with the aggregate metrics.  `ticket_promedio` is
`mean(Amount)` when the filtered set is non-empty, else the literal `0`. -/
def calculate_metrics (df : List CleanRecord) (start_date end_date : Fecha)
    (selected_clients : List PyStr) (selected_categories : List Categoria)
    (tipo_venta : Option PyStr) : List CleanRecord × Metrics :=
  let df1 := df.filter (fun r => dateLe start_date r.date && dateLe r.date end_date)
  let df2 := match tipo_venta with
    | none => df1
    | some t => if t.isEmpty then df1 else df1.filter (fun r => decide (r.type = t))
  let df3 := if selected_clients.isEmpty then df2
             else df2.filter (fun r => decide (r.name ∈ selected_clients))
  let df4 := if selected_categories.isEmpty then df3
             else df3.filter (fun r => decide (r.categoria ∈ selected_categories))
  let contado := df4.filter (fun r => decide (r.type = SALES_RECEIPT))
  let credito := df4.filter (fun r => decide (r.type = INVOICE))
  (df4,
   { total_ventas := sumAmounts df4,
     total_transacciones := df4.length,
     ticket_promedio := if 0 < df4.length then sumAmounts df4 / (df4.length : ℚ) else 0,
     clientes_unicos := (df4.map (fun r => r.name)).dedup.length,
     productos_unicos := (df4.map (fun r => r.item)).dedup.length,
     dias_con_ventas := (df4.map (fun r => r.date)).dedup.length,
     venta_contado := sumAmounts contado,
     venta_credito := sumAmounts credito,
     transacciones_contado := contado.length,
     transacciones_credito := credito.length })

/-- Standard UTF-8 decoding of a byte list into code points, with fuel
(called with fuel = length, enough for the 1-4 bytes consumed per step);
`none` models Python's `UnicodeDecodeError`. -/
def utf8DecAux : Nat → List Nat → Option (List Nat)
  | _, [] => some []
  | 0, _ :: _ => none
  | fuel + 1, b :: rest =>
    if b < 128 then (utf8DecAux fuel rest).map (fun cs => b :: cs)
    else if 194 ≤ b ∧ b ≤ 223 then
      match rest with
      | b2 :: rest2 =>
        if 128 ≤ b2 ∧ b2 ≤ 191 then
          (utf8DecAux fuel rest2).map (fun cs => ((b - 192) * 64 + (b2 - 128)) :: cs)
        else none
      | [] => none
    else if 224 ≤ b ∧ b ≤ 239 then
      match rest with
      | b2 :: b3 :: rest3 =>
        if ((if b = 224 then 160 else 128) ≤ b2 ∧ b2 ≤ (if b = 237 then 159 else 191)) ∧
            (128 ≤ b3 ∧ b3 ≤ 191) then
          (utf8DecAux fuel rest3).map
            (fun cs => ((b - 224) * 4096 + (b2 - 128) * 64 + (b3 - 128)) :: cs)
        else none
      | _ => none
    else if 240 ≤ b ∧ b ≤ 244 then
      match rest with
      | b2 :: b3 :: b4 :: rest4 =>
        if ((if b = 240 then 144 else 128) ≤ b2 ∧ b2 ≤ (if b = 244 then 143 else 191)) ∧
            (128 ≤ b3 ∧ b3 ≤ 191) ∧ (128 ≤ b4 ∧ b4 ≤ 191) then
          (utf8DecAux fuel rest4).map
            (fun cs => ((b - 240) * 262144 + (b2 - 128) * 4096 + (b3 - 128) * 64 + (b4 - 128)) :: cs)
        else none
      | _ => none
    else none

/-- `bytes.decode('utf-8')`, `none` on `UnicodeDecodeError`. -/
def utf8Decode (bs : List Nat) : Option (List Nat) := utf8DecAux bs.length bs

/-- `bytes.decode('latin-1')`: every byte is the code point of the same
value; this codec never raises. -/
def latin1Decode (bs : List Nat) : Option (List Nat) := some bs

/-- `bytes.decode('iso-8859-1')`: the same codec as latin-1. -/
def iso8859_1Decode (bs : List Nat) : Option (List Nat) := some bs

/-- One byte under `bytes.decode('cp1252')`: bytes outside 0x80-0x9F keep
their value; 0x80-0x9F map through the Windows-1252 table, five of them
(0x81, 0x8D, 0x8F, 0x90, 0x9D) being undefined. -/
def cp1252Char (b : Nat) : Option Nat :=
  if b < 128 ∨ 160 ≤ b then some b
  else if b = 128 then some 8364
  else if b = 130 then some 8218
  else if b = 131 then some 402
  else if b = 132 then some 8222
  else if b = 133 then some 8230
  else if b = 134 then some 8224
  else if b = 135 then some 8225
  else if b = 136 then some 710
  else if b = 137 then some 8240
  else if b = 138 then some 352
  else if b = 139 then some 8249
  else if b = 140 then some 338
  else if b = 142 then some 381
  else if b = 145 then some 8216
  else if b = 146 then some 8217
  else if b = 147 then some 8220
  else if b = 148 then some 8221
  else if b = 149 then some 8226
  else if b = 150 then some 8211
  else if b = 151 then some 8212
  else if b = 152 then some 732
  else if b = 153 then some 8482
  else if b = 154 then some 353
  else if b = 155 then some 8250
  else if b = 156 then some 339
  else if b = 158 then some 382
  else if b = 159 then some 376
  else none

/-- `bytes.decode('cp1252')`, `none` on `UnicodeDecodeError`. -/
def cp1252Decode : List Nat → Option (List Nat)
  | [] => some []
  | b :: rest =>
    match cp1252Char b, cp1252Decode rest with
    | some c, some cs => some (c :: cs)
    | _, _ => none

/-- The encoding-fallback loop of `load_data` (lines 28-36): try utf-8,
latin-1, iso-8859-1, cp1252 in order, keeping the first decode that does
not raise `UnicodeDecodeError`. -/
def load_decode (bs : List Nat) : Option (List Nat) :=
  match utf8Decode bs with
  | some cs => some cs
  | none =>
    match latin1Decode bs with
    | some cs => some cs
    | none =>
      match iso8859_1Decode bs with
      | some cs => some cs
      | none => cp1252Decode bs

example : categorizar_producto (strCp "Agua Hielo 500ml") = Categoria.aguaEnBolsa := by decide
example : categorizar_producto (strCp "Botellon 5gal") = Categoria.botellones := by decide
example : parseDate (strCp "31/02/2025") = none := by decide
example : parseDate (strCp "25/03/2025") = some ⟨2025, 3, 25⟩ := by decide
example : parseNum (strCp "-12.5") = some (-(25/2 : ℚ)) := by
  simp [parseNum, parseUnsigned, pyStrip, stripL, splitChar, allDigits, natOfDigits, strCp, isSpace]
  norm_num
example : parseNum (strCp "abc") = none := by
  simp [parseNum, parseUnsigned, pyStrip, stripL, splitChar, allDigits, natOfDigits, strCp, isSpace]
example : pyUpper (pyStrip (strCp "  jose perez ")) = strCp "JOSE PEREZ" := by decide

/-- C1: for every dataset and filter specification, `total_transacciones`
equals the number of filtered records and `total_ventas` equals the sum of
`Amount` over the filtered records. -/
theorem query_count_and_total_consistent (df : List CleanRecord) (sd ed : Fecha)
    (cl : List PyStr) (cat : List Categoria) (tv : Option PyStr) :
    (calculate_metrics df sd ed cl cat tv).2.total_transacciones
      = (calculate_metrics df sd ed cl cat tv).1.length ∧
    (calculate_metrics df sd ed cl cat tv).2.total_ventas
      = ((calculate_metrics df sd ed cl cat tv).1.map (fun r => r.amount)).sum :=
  ⟨rfl, rfl⟩

/-- C5: `ticket_promedio` is `total_ventas / total_transacciones` when the
filtered set is non-empty and the literal `0` (no NaN, no error) when it is
empty. -/
theorem ticket_promedio_division_guarded (df : List CleanRecord) (sd ed : Fecha)
    (cl : List PyStr) (cat : List Categoria) (tv : Option PyStr) :
    (0 < (calculate_metrics df sd ed cl cat tv).2.total_transacciones →
      (calculate_metrics df sd ed cl cat tv).2.ticket_promedio
        = (calculate_metrics df sd ed cl cat tv).2.total_ventas
            / ((calculate_metrics df sd ed cl cat tv).2.total_transacciones : ℚ)) ∧
    ((calculate_metrics df sd ed cl cat tv).2.total_transacciones = 0 →
      (calculate_metrics df sd ed cl cat tv).2.ticket_promedio = 0) := by
  have h : (calculate_metrics df sd ed cl cat tv).2.ticket_promedio
      = if 0 < (calculate_metrics df sd ed cl cat tv).2.total_transacciones
        then (calculate_metrics df sd ed cl cat tv).2.total_ventas
            / ((calculate_metrics df sd ed cl cat tv).2.total_transacciones : ℚ)
        else 0 := rfl
  constructor
  · intro hpos
    rw [h, if_pos hpos]
  · intro hzero
    rw [h, if_neg (by omega)]

/-- C3: the cleaning row filter keeps exactly the rows whose `Type` is
present and free of the case-sensitive substring `"Total"` and whose
`Name`, `Item`, `Amount` are present; a row with `Type = "Total Sales"` is
always excluded. -/
theorem row_filter_exact (raw : List RawRecord) (r : RawRecord) :
    (r ∈ raw.filter passesRowFilter ↔
      r ∈ raw ∧ (∃ t, r.type = some t ∧ containsSub t (strCp "Total") = false) ∧
        r.name.isSome = true ∧ r.item.isSome = true ∧ r.amount.isSome = true) ∧
    (r.type = some (strCp "Total Sales") → r ∉ raw.filter passesRowFilter) := by
  have hchar : passesRowFilter r = true ↔
      (∃ t', r.type = some t' ∧ containsSub t' (strCp "Total") = false) ∧
        r.name.isSome = true ∧ r.item.isSome = true ∧ r.amount.isSome = true := by
    cases ht : r.type with
    | none => simp [passesRowFilter, ht]
    | some t =>
      simp [passesRowFilter, ht, Bool.and_eq_true, Bool.not_eq_true', and_assoc]
  constructor
  · rw [List.mem_filter, hchar]
  · intro htotal hmem
    rw [List.mem_filter] at hmem
    rcases hchar.mp hmem.2 with ⟨⟨t', ht', hfree⟩, _⟩
    rw [htotal] at ht'
    cases ht'
    revert hfree
    decide

/-- C4: for a row past the row filter, an unparseable `Qty`, `Sales Price`
or `Balance` becomes null with the row retained; a row whose `Date` fails
day/month/year calendar parsing (`"31/02/2025"`, non-date text) or whose
`Amount` fails numeric parsing is dropped, and a dropped row never aborts
the load: the rest of the table cleans identically without it. -/
theorem coercion_required_vs_optional :
    (∀ (r : RawRecord) (d : Fecha) (a : ℚ),
      r.date.bind parseDate = some d → r.amount.bind parseNum = some a →
      ∃ c, toClean r = some c ∧ c.qty = r.qty.bind parseNum ∧
        c.salesPrice = r.salesPrice.bind parseNum ∧ c.balance = r.balance.bind parseNum) ∧
    (∀ r : RawRecord,
      r.date.bind parseDate = none ∨ r.amount.bind parseNum = none → toClean r = none) ∧
    parseDate (strCp "31/02/2025") = none ∧
    parseDate (strCp "not a date") = none ∧
    parseNum (strCp "n/a") = none ∧
    (∀ (pre post : List RawRecord) (r : RawRecord), toClean r = none →
      load_data (pre ++ r :: post) = load_data (pre ++ post)) := by
  refine ⟨?_, ?_, by decide, by decide, by decide, ?_⟩
  · intro r d a hd ha
    simp only [toClean, hd, ha]
    exact ⟨_, rfl, rfl, rfl, rfl⟩
  · intro r hr
    rcases hr with hd | ha
    · simp [toClean, hd]
    · cases hd : r.date.bind parseDate <;> simp [toClean, hd, ha]
  · intro pre post r hr
    unfold load_data
    rw [List.filter_append, List.filter_append]
    cases hp : passesRowFilter r with
    | false => simp [List.filter_cons, hp]
    | true => simp [List.filter_cons, hp, List.filterMap_append, List.filterMap_cons, hr]

/-- C2: the derived category is one of the six enumerated values, determined
solely by case-insensitive substring matching of `Item` against the ordered
rule list, first match wins; an item containing both `"agua"` and
`"hielo"` maps to the water-bag category. -/
theorem categoria_ordered_keyword_rules (item : PyStr) :
    ((containsSub (pyLower item) (strCp "agua") = true ∨
        containsSub (pyLower item) (strCp "bolsa") = true) →
      categorizar_producto item = Categoria.aguaEnBolsa) ∧
    (containsSub (pyLower item) (strCp "agua") = false →
      containsSub (pyLower item) (strCp "bolsa") = false →
      containsSub (pyLower item) (strCp "hielo") = true →
      categorizar_producto item = Categoria.hielo) ∧
    (containsSub (pyLower item) (strCp "agua") = false →
      containsSub (pyLower item) (strCp "bolsa") = false →
      containsSub (pyLower item) (strCp "hielo") = false →
      containsSub (pyLower item) (strCp "botellon") = true →
      categorizar_producto item = Categoria.botellones) ∧
    (containsSub (pyLower item) (strCp "agua") = false →
      containsSub (pyLower item) (strCp "bolsa") = false →
      containsSub (pyLower item) (strCp "hielo") = false →
      containsSub (pyLower item) (strCp "botellon") = false →
      (containsSub (pyLower item) (strCp "botecito") = true ∨
        containsSub (pyLower item) (strCp "bote") = true) →
      categorizar_producto item = Categoria.botecitos) ∧
    (containsSub (pyLower item) (strCp "agua") = false →
      containsSub (pyLower item) (strCp "bolsa") = false →
      containsSub (pyLower item) (strCp "hielo") = false →
      containsSub (pyLower item) (strCp "botellon") = false →
      containsSub (pyLower item) (strCp "botecito") = false →
      containsSub (pyLower item) (strCp "bote") = false →
      (containsSub (pyLower item) (strCp "impuesto") = true ∨
        containsSub (pyLower item) (strCp "isv") = true) →
      categorizar_producto item = Categoria.impuestos) ∧
    (containsSub (pyLower item) (strCp "agua") = false →
      containsSub (pyLower item) (strCp "bolsa") = false →
      containsSub (pyLower item) (strCp "hielo") = false →
      containsSub (pyLower item) (strCp "botellon") = false →
      containsSub (pyLower item) (strCp "botecito") = false →
      containsSub (pyLower item) (strCp "bote") = false →
      containsSub (pyLower item) (strCp "impuesto") = false →
      containsSub (pyLower item) (strCp "isv") = false →
      categorizar_producto item = Categoria.otros) ∧
    categorizar_producto (strCp "Agua Hielo 500ml") = Categoria.aguaEnBolsa := by
  refine ⟨?_, ?_, ?_, ?_, ?_, ?_, by decide⟩
  · rintro (h | h) <;> simp [categorizar_producto, h]
  · intro h1 h2 h3
    simp [categorizar_producto, h1, h2, h3]
  · intro h1 h2 h3 h4
    simp [categorizar_producto, h1, h2, h3, h4]
  · intro h1 h2 h3 h4 h5
    rcases h5 with h5 | h5 <;> simp [categorizar_producto, h1, h2, h3, h4, h5]
  · intro h1 h2 h3 h4 h5 h6 h7
    rcases h7 with h7 | h7 <;> simp [categorizar_producto, h1, h2, h3, h4, h5, h6, h7]
  · intro h1 h2 h3 h4 h5 h6 h7 h8
    simp [categorizar_producto, h1, h2, h3, h4, h5, h6, h7, h8]

/-- A cleaned record with a given date and amount (the other fields are
arbitrary but fixed), for concrete query examples. -/
def ejemploRegistro (d : Fecha) (amt : ℚ) : CleanRecord :=
  { type := SALES_RECEIPT, name := strCp "CLIENTE A", item := strCp "Agua en bolsa",
    date := d, qty := none, salesPrice := none, amount := amt, balance := none,
    year := d.year, month := d.month, day := d.day, categoria := Categoria.aguaEnBolsa }

/-- C6: the date-range filter is inclusive on both ends and compared as
calendar dates; on records dated 2025-01-01/02/03 with amounts 100/200/300,
the range [2025-01-01, 2025-01-02] yields totalSales 300 over 2
transactions. -/
theorem date_range_inclusive :
    (∀ (df : List CleanRecord) (sd ed : Fecha) (r : CleanRecord),
      r ∈ (calculate_metrics df sd ed [] [] none).1 ↔
        r ∈ df ∧ dateLe sd r.date = true ∧ dateLe r.date ed = true) ∧
    (calculate_metrics
        [ejemploRegistro ⟨2025, 1, 1⟩ 100, ejemploRegistro ⟨2025, 1, 2⟩ 200,
          ejemploRegistro ⟨2025, 1, 3⟩ 300]
        ⟨2025, 1, 1⟩ ⟨2025, 1, 2⟩ [] [] none).2.total_ventas = 300 ∧
    (calculate_metrics
        [ejemploRegistro ⟨2025, 1, 1⟩ 100, ejemploRegistro ⟨2025, 1, 2⟩ 200,
          ejemploRegistro ⟨2025, 1, 3⟩ 300]
        ⟨2025, 1, 1⟩ ⟨2025, 1, 2⟩ [] [] none).2.total_transacciones = 2 := by
  refine ⟨?_, ?_, by decide⟩
  · intro df sd ed r
    simp [calculate_metrics, List.mem_filter, Bool.and_eq_true, and_assoc]
  · simp [calculate_metrics, sumAmounts, ejemploRegistro, dateLe, List.filter]
    norm_num

lemma pyUpperChar_idem (c : Nat) : pyUpperChar (pyUpperChar c) = pyUpperChar c := by
  by_cases h : 97 ≤ c ∧ c ≤ 122
  · have h2 : ¬(97 ≤ c - 32 ∧ c - 32 ≤ 122) := by omega
    simp only [pyUpperChar, if_pos h, if_neg h2]
  · simp [pyUpperChar, h]

lemma isSpace_pyUpperChar (c : Nat) : isSpace (pyUpperChar c) = isSpace c := by
  by_cases h : 97 ≤ c ∧ c ≤ 122
  · simp only [pyUpperChar, if_pos h, isSpace]
    rw [decide_eq_decide]
    omega
  · simp [pyUpperChar, h]

lemma pyUpper_idem (s : PyStr) : pyUpper (pyUpper s) = pyUpper s := by
  simp [pyUpper, List.map_map, Function.comp_def, pyUpperChar_idem]

lemma dropWhile_map_pres (f : Nat → Nat) (p : Nat → Bool) (hf : ∀ a, p (f a) = p a) :
    ∀ l : PyStr, (l.map f).dropWhile p = (l.dropWhile p).map f := by
  intro l
  induction l with
  | nil => rfl
  | cons a t ih =>
    cases h : p a with
    | true => simp [List.dropWhile_cons, h, hf a, ih]
    | false => simp [List.dropWhile_cons, h, hf a]

lemma pyStrip_eq_rdrop (s : PyStr) : pyStrip s = List.rdropWhile isSpace (stripL s) := rfl

lemma pyStrip_pyUpper (s : PyStr) : pyStrip (pyUpper s) = pyUpper (pyStrip s) := by
  have hfun : ∀ a, isSpace (pyUpperChar a) = isSpace a := isSpace_pyUpperChar
  simp only [pyStrip_eq_rdrop, stripL, pyUpper, List.rdropWhile]
  rw [dropWhile_map_pres _ _ hfun, ← List.map_reverse, dropWhile_map_pres _ _ hfun,
    ← List.map_reverse]

lemma pyStrip_idem (s : PyStr) : pyStrip (pyStrip s) = pyStrip s := by
  simp only [pyStrip_eq_rdrop, stripL]
  have hself : (List.rdropWhile isSpace (s.dropWhile isSpace)).dropWhile isSpace
      = List.rdropWhile isSpace (s.dropWhile isSpace) := by
    rw [List.dropWhile_eq_self_iff]
    intro hl
    have hpref := List.rdropWhile_prefix isSpace (s.dropWhile isSpace)
    have hlen : 0 < (s.dropWhile isSpace).length :=
      lt_of_lt_of_le hl hpref.length_le
    have h0 := List.dropWhile_get_zero_not isSpace s hlen
    have hget : (List.rdropWhile isSpace (s.dropWhile isSpace)).get ⟨0, hl⟩
        = (s.dropWhile isSpace).get ⟨0, hlen⟩ := by
      simp only [List.get_eq_getElem]
      exact hpref.getElem hl
    rw [hget]
    exact h0
  rw [hself, List.rdropWhile_idempotent]

lemma canon_idem (s : PyStr) :
    pyUpper (pyStrip (pyUpper (pyStrip s))) = pyUpper (pyStrip s) := by
  rw [pyStrip_pyUpper, pyUpper_idem, pyStrip_idem]

/-- Re-running the cleaner's text normalization on one cleaned record. -/
def normalizeRecord (c : CleanRecord) : CleanRecord :=
  { c with name := pyUpper (pyStrip c.name), item := pyStrip c.item }

/-- C8: cleaning text normalization is idempotent: every cleaned record's
`Name` is its own trimmed-uppercase form and its `Item` its own trimmed
form, so re-normalizing a cleaned table is a no-op. -/
theorem normalization_idempotent (raw : List RawRecord) :
    (load_data raw).map normalizeRecord = load_data raw ∧
    ∀ c ∈ load_data raw, c.name = pyUpper (pyStrip c.name) ∧ c.item = pyStrip c.item := by
  have hrec : ∀ c ∈ load_data raw,
      c.name = pyUpper (pyStrip c.name) ∧ c.item = pyStrip c.item := by
    intro c hc
    unfold load_data at hc
    rw [List.mem_filterMap] at hc
    obtain ⟨r, _, hr⟩ := hc
    cases hd : r.date.bind parseDate with
    | none => simp [toClean, hd] at hr
    | some d =>
      cases ha : r.amount.bind parseNum with
      | none => simp [toClean, hd, ha] at hr
      | some a =>
        simp only [toClean, hd, ha, Option.some.injEq] at hr
        subst hr
        exact ⟨(canon_idem _).symm, (pyStrip_idem _).symm⟩
  have hfix : ∀ c ∈ load_data raw, normalizeRecord c = c := by
    intro c hc
    obtain ⟨h1, h2⟩ := hrec c hc
    unfold normalizeRecord
    rw [← h1, ← h2]
  have hmap : ∀ l : List CleanRecord, (∀ c ∈ l, normalizeRecord c = c) →
      l.map normalizeRecord = l := by
    intro l
    induction l with
    | nil => intro _; rfl
    | cons a t ih =>
      intro h
      simp only [List.map_cons, h a (List.mem_cons_self a t),
        ih (fun c hc => h c (List.mem_cons_of_mem a hc))]
  exact ⟨hmap _ hfix, hrec⟩

/-- C7 counterexample: the byte list `[0x4A, 0x8A]` is a valid Windows-1252
encoding (of `J` followed by `Š`, code point 0x160) and is not valid UTF-8,
yet the loader decodes it with latin-1, producing code point 0x8A instead
of 0x160: the name is not correctly decoded. -/
theorem encoding_cp1252_misdecoded_cex :
    cp1252Decode [74, 138] = some [74, 352] ∧
    utf8Decode [74, 138] = none ∧
    load_decode [74, 138] = some [74, 138] ∧
    load_decode [74, 138] ≠ cp1252Decode [74, 138] := by decide

/-- C7 (amended): the loader tries utf-8, latin-1, iso-8859-1, cp1252 in
order and keeps the first decode that does not error; latin-1 never errors,
so loading always succeeds and a file that is not valid UTF-8 is decoded as
latin-1, which agrees with Windows-1252 exactly on bytes outside
0x80-0x9F; decode then strip+uppercase is a stable canonical form. -/
theorem encoding_fallback_order_amended :
    (∀ bs : List Nat, (load_decode bs).isSome = true) ∧
    (∀ (bs cs : List Nat), utf8Decode bs = some cs → load_decode bs = some cs) ∧
    (∀ bs : List Nat, utf8Decode bs = none → load_decode bs = some bs) ∧
    (∀ bs : List Nat, utf8Decode bs = none → (∀ b ∈ bs, ¬(128 ≤ b ∧ b ≤ 159)) →
      load_decode bs = cp1252Decode bs) ∧
    (∀ s : PyStr, pyUpper (pyStrip (pyUpper (pyStrip s))) = pyUpper (pyStrip s)) := by
  have hcp : ∀ bs : List Nat, (∀ b ∈ bs, ¬(128 ≤ b ∧ b ≤ 159)) →
      cp1252Decode bs = some bs := by
    intro bs h
    induction bs with
    | nil => rfl
    | cons b t ih =>
      have hb : cp1252Char b = some b := by
        have hrange := h b (List.mem_cons_self b t)
        unfold cp1252Char
        rw [if_pos (by omega)]
      simp [cp1252Decode, hb, ih (fun x hx => h x (List.mem_cons_of_mem b hx))]
  refine ⟨?_, ?_, ?_, ?_, canon_idem⟩
  · intro bs
    unfold load_decode
    cases h : utf8Decode bs <;> simp [latin1Decode]
  · intro bs cs h
    unfold load_decode
    rw [h]
  · intro bs h
    unfold load_decode
    rw [h]
    rfl
  · intro bs h hb
    unfold load_decode
    rw [h]
    simp [latin1Decode, hcp bs hb]

/-- C9: with the transaction-type filter unset, the per-type split metrics
equal the sum of `Amount` (resp. the row count) over the filtered records
of exactly that `Type`, defaulting to 0 when the type is absent. -/
theorem type_split_metrics_when_unfiltered (df : List CleanRecord) (sd ed : Fecha)
    (cl : List PyStr) (cat : List Categoria) :
    (calculate_metrics df sd ed cl cat none).2.venta_contado
      = sumAmounts ((calculate_metrics df sd ed cl cat none).1.filter
          (fun r => decide (r.type = SALES_RECEIPT))) ∧
    (calculate_metrics df sd ed cl cat none).2.venta_credito
      = sumAmounts ((calculate_metrics df sd ed cl cat none).1.filter
          (fun r => decide (r.type = INVOICE))) ∧
    (calculate_metrics df sd ed cl cat none).2.transacciones_contado
      = ((calculate_metrics df sd ed cl cat none).1.filter
          (fun r => decide (r.type = SALES_RECEIPT))).length ∧
    (calculate_metrics df sd ed cl cat none).2.transacciones_credito
      = ((calculate_metrics df sd ed cl cat none).1.filter
          (fun r => decide (r.type = INVOICE))).length ∧
    ((∀ r ∈ (calculate_metrics df sd ed cl cat none).1, r.type ≠ SALES_RECEIPT) →
      (calculate_metrics df sd ed cl cat none).2.venta_contado = 0 ∧
      (calculate_metrics df sd ed cl cat none).2.transacciones_contado = 0) ∧
    ((∀ r ∈ (calculate_metrics df sd ed cl cat none).1, r.type ≠ INVOICE) →
      (calculate_metrics df sd ed cl cat none).2.venta_credito = 0 ∧
      (calculate_metrics df sd ed cl cat none).2.transacciones_credito = 0) := by
  refine ⟨rfl, rfl, rfl, rfl, ?_, ?_⟩
  · intro h
    have hnil : (calculate_metrics df sd ed cl cat none).1.filter
        (fun r => decide (r.type = SALES_RECEIPT)) = [] := by
      rw [List.filter_eq_nil_iff]
      intro a ha
      simpa using h a ha
    constructor
    · have e : (calculate_metrics df sd ed cl cat none).2.venta_contado
          = sumAmounts ((calculate_metrics df sd ed cl cat none).1.filter
              (fun r => decide (r.type = SALES_RECEIPT))) := rfl
      rw [e, hnil]
      rfl
    · have e : (calculate_metrics df sd ed cl cat none).2.transacciones_contado
          = ((calculate_metrics df sd ed cl cat none).1.filter
              (fun r => decide (r.type = SALES_RECEIPT))).length := rfl
      rw [e, hnil]
      rfl
  · intro h
    have hnil : (calculate_metrics df sd ed cl cat none).1.filter
        (fun r => decide (r.type = INVOICE)) = [] := by
      rw [List.filter_eq_nil_iff]
      intro a ha
      simpa using h a ha
    constructor
    · have e : (calculate_metrics df sd ed cl cat none).2.venta_credito
          = sumAmounts ((calculate_metrics df sd ed cl cat none).1.filter
              (fun r => decide (r.type = INVOICE))) := rfl
      rw [e, hnil]
      rfl
    · have e : (calculate_metrics df sd ed cl cat none).2.transacciones_credito
          = ((calculate_metrics df sd ed cl cat none).1.filter
              (fun r => decide (r.type = INVOICE))).length := rfl
      rw [e, hnil]
      rfl

lemma filter_two_disjoint {α : Type} (p q : α → Bool)
    (hpq : ∀ a, ¬(p a = true ∧ q a = true)) (l : List α) :
    (l.filter p).length + (l.filter q).length ≤ l.length ∧
      ((l.filter p).length + (l.filter q).length = l.length ↔
        ∀ a ∈ l, p a = true ∨ q a = true) := by
  induction l with
  | nil => simp
  | cons a t ih =>
    rcases ih with ⟨ih1, ih2⟩
    cases hp : p a with
    | true =>
      have hq : q a = false := by
        cases hqa : q a
        · rfl
        · exact absurd ⟨hp, hqa⟩ (hpq a)
      simp only [List.filter_cons, hp, hq, if_true, if_false, Bool.false_eq_true,
        List.length_cons, List.mem_cons, ite_true, ite_false]
      constructor
      · omega
      constructor
      · intro hlen r hr
        rcases hr with rfl | hr'
        · exact Or.inl hp
        · exact ih2.mp (by omega) r hr'
      · intro hall
        have := ih2.mpr (fun r hr => hall r (Or.inr hr))
        omega
    | false =>
      cases hq : q a with
      | true =>
        simp only [List.filter_cons, hp, hq, if_true, if_false, Bool.false_eq_true,
          List.length_cons, List.mem_cons, ite_true, ite_false]
        constructor
        · omega
        constructor
        · intro hlen r hr
          rcases hr with rfl | hr'
          · exact Or.inr hq
          · exact ih2.mp (by omega) r hr'
        · intro hall
          have := ih2.mpr (fun r hr => hall r (Or.inr hr))
          omega
      | false =>
        simp only [List.filter_cons, hp, hq, Bool.false_eq_true,
          List.length_cons, List.mem_cons, ite_true, ite_false]
        constructor
        · omega
        constructor
        · intro hlen
          omega
        · intro hall
          rcases hall a (Or.inl rfl) with h' | h'
          · rw [hp] at h'
            cases h'
          · rw [hq] at h'
            cases h'

lemma mem_of_mem_iteFilter {α : Type} {c : Bool} {p : α → Bool} {l : List α} {r : α}
    (h : r ∈ if c = true then l else l.filter p) : r ∈ l := by
  split at h
  · exact h
  · exact List.mem_of_mem_filter h

/-- C10: for every filter specification (type filter set or not) the split
counts satisfy `transacciones_contado + transacciones_credito <=
total_transacciones`, with equality exactly when every filtered record's
`Type` is `"Sales Receipt"` or `"Invoice"`; with the type filter set to
`"Sales Receipt"`, `transacciones_credito` is 0 and
`transacciones_contado` equals `total_transacciones`. -/
theorem type_split_invariant (df : List CleanRecord) (sd ed : Fecha)
    (cl : List PyStr) (cat : List Categoria) (tv : Option PyStr) :
    (calculate_metrics df sd ed cl cat tv).2.transacciones_contado
        + (calculate_metrics df sd ed cl cat tv).2.transacciones_credito
      ≤ (calculate_metrics df sd ed cl cat tv).2.total_transacciones ∧
    ((calculate_metrics df sd ed cl cat tv).2.transacciones_contado
        + (calculate_metrics df sd ed cl cat tv).2.transacciones_credito
      = (calculate_metrics df sd ed cl cat tv).2.total_transacciones ↔
      ∀ r ∈ (calculate_metrics df sd ed cl cat tv).1,
        r.type = SALES_RECEIPT ∨ r.type = INVOICE) ∧
    (tv = some SALES_RECEIPT →
      (calculate_metrics df sd ed cl cat tv).2.transacciones_credito = 0 ∧
      (calculate_metrics df sd ed cl cat tv).2.transacciones_contado
        = (calculate_metrics df sd ed cl cat tv).2.total_transacciones) := by
  have hpq : ∀ r : CleanRecord,
      ¬(decide (r.type = SALES_RECEIPT) = true ∧ decide (r.type = INVOICE) = true) := by
    rintro r ⟨h1, h2⟩
    rw [decide_eq_true_eq] at h1 h2
    rw [h1] at h2
    exact absurd h2 (by decide)
  obtain ⟨hle, hiff⟩ := filter_two_disjoint
    (fun r => decide (r.type = SALES_RECEIPT)) (fun r => decide (r.type = INVOICE))
    hpq ((calculate_metrics df sd ed cl cat tv).1)
  refine ⟨hle, ?_, ?_⟩
  · constructor
    · intro h r hr
      have := hiff.mp h r hr
      simpa using this
    · intro h
      exact hiff.mpr (fun r hr => by simpa using h r hr)
  · intro htv
    subst htv
    have hall : ∀ r ∈ (calculate_metrics df sd ed cl cat (some SALES_RECEIPT)).1,
        r.type = SALES_RECEIPT := by
      intro r hr
      simp only [calculate_metrics] at hr
      have hr2 := mem_of_mem_iteFilter (mem_of_mem_iteFilter hr)
      rw [if_neg (by decide)] at hr2
      exact of_decide_eq_true (List.mem_filter.mp hr2).2
    constructor
    · have hnil : (calculate_metrics df sd ed cl cat (some SALES_RECEIPT)).1.filter
          (fun r => decide (r.type = INVOICE)) = [] := by
        rw [List.filter_eq_nil_iff]
        intro a ha
        rw [hall a ha]
        decide
      have e : (calculate_metrics df sd ed cl cat (some SALES_RECEIPT)).2.transacciones_credito
          = ((calculate_metrics df sd ed cl cat (some SALES_RECEIPT)).1.filter
              (fun r => decide (r.type = INVOICE))).length := rfl
      rw [e, hnil]
      rfl
    · have hself : (calculate_metrics df sd ed cl cat (some SALES_RECEIPT)).1.filter
          (fun r => decide (r.type = SALES_RECEIPT))
          = (calculate_metrics df sd ed cl cat (some SALES_RECEIPT)).1 := by
        rw [List.filter_eq_self]
        intro a ha
        rw [hall a ha]
        decide
      have e : (calculate_metrics df sd ed cl cat (some SALES_RECEIPT)).2.transacciones_contado
          = ((calculate_metrics df sd ed cl cat (some SALES_RECEIPT)).1.filter
              (fun r => decide (r.type = SALES_RECEIPT))).length := rfl
      rw [e, hself]
      rfl
